import Mathlib

set_option maxRecDepth 8192

/- Shallow embedding of src/py2pddl/init.py: an interactive scaffolding
   generator that asks for a name, for type tokens, for predicate tokens and
   for action tokens, renders a fixed six-section Python skeleton from the
   answers, and writes it to a fresh file. -/

namespace Py2pddl

/-- Errors a run of init can surface. fileExistsError models the Python
FileExistsError raised when the destination exists, init.py line 11.
indexError models the Python IndexError raised by indexing an empty string,
init.py line 16. eofError models the Python EOFError raised by input at end
of input. osError models a Python OSError raised by the host storage layer
from the open or write call at init.py lines 98 to 99 and propagated
unmodified. emptyInputError is modelled from the spec: the typed
EmptyInputError of the error taxonomy in the spec; no code in src raises
it. -/
inductive PyError where
  | fileExistsError
  | indexError
  | eofError
  | osError
  | emptyInputError
  deriving DecidableEq, Repr

/-- The characters Python str.strip removes: space, tab, newline, carriage
return, vertical tab, form feed. -/
def isPySpace (c : Char) : Bool :=
  c = ' ' || c = '\t' || c = '\n' || c = '\r' || c = '\x0b' || c = '\x0c'

/-- Python s.lstrip().rstrip() as used on every answer: drop whitespace from
both ends. -/
def pyStrip (s : String) : String :=
  ⟨((s.data.dropWhile isPySpace).reverse.dropWhile isPySpace).reverse⟩

/-- Python s.split(sep) for a one-character separator: split at every
occurrence of the separator and keep empty pieces, so the result always has
one more piece than there are separators; on the empty string the result is
one empty piece. -/
def splitCh (sep : Char) : List Char → List (List Char)
  | [] => [[]]
  | c :: cs =>
    match splitCh sep cs with
    | [] => [[]]
    | t :: ts => if c = sep then [] :: t :: ts else (c :: t) :: ts

/-- Python s.split(" ") as a list of strings. -/
def splitSpace (s : String) : List String :=
  (splitCh ' ' s.data).map String.mk

/-- Python str.lower, ASCII case mapping. -/
def pyLower (s : String) : String := ⟨s.data.map Char.toLower⟩

/-- Worker for Python str.title. The Boolean records whether the previous
character was a letter: a letter following a letter is lowercased, a letter
following anything else is uppercased, every other character passes through
unchanged. ASCII case mapping. -/
def titleAux : Bool → List Char → List Char
  | _, [] => []
  | prevAlpha, c :: cs =>
    if c.isAlpha then
      (if prevAlpha then c.toLower else c.toUpper) :: titleAux true cs
    else
      c :: titleAux false cs

/-- Python str.title, applied to every type token at init.py line 21. -/
def pyTitle (s : String) : String := ⟨titleAux false s.data⟩

/-- The name step, init.py lines 14 to 16: strip the answer, then build
answer[0].upper() + answer[1:]. Indexing an empty string raises IndexError,
so an empty stripped answer fails with indexError. -/
def collectName (raw : String) : Except PyError String :=
  match (pyStrip raw).data with
  | [] => Except.error PyError.indexError
  | c :: cs => Except.ok ⟨c.toUpper :: cs⟩

/-- The type tokens, init.py lines 19 to 21: strip, split on one space,
title-case each token. -/
def typesOf (raw : String) : List String :=
  (splitSpace (pyStrip raw)).map pyTitle

/-- The predicate tokens, init.py lines 24 to 26: strip, split on one space,
lowercase each token. -/
def predicatesOf (raw : String) : List String :=
  (splitSpace (pyStrip raw)).map pyLower

/-- The action tokens, init.py lines 29 to 31: strip, split on one space,
lowercase each token. -/
def actionsOf (raw : String) : List String :=
  (splitSpace (pyStrip raw)).map pyLower

/-- Python sep.join(pieces). -/
def joinSep (sep : String) : List String → String
  | [] => ""
  | [x] => x
  | x :: xs => x ++ sep ++ joinSep sep xs

/-- The domain header block, the f-string at init.py lines 33 to 40. -/
def domainHeader (className : String) : String :=
  "from py2pddl import Domain, create_type, create_objs\nfrom py2pddl import predicate, action, goal, init\n\n\nclass "
    ++ className ++ "Domain(Domain):\n"

/-- One type declaration line, the f-string at init.py lines 43 to 45. -/
def typeLine (typ : String) : String :=
  "    " ++ typ ++ " = create_type(\"" ++ typ ++ "\")\n"

/-- The type section, init.py line 42: the type lines joined with the empty
separator. -/
def sectionTypes (types : List String) : String :=
  joinSep "" (types.map typeLine)

/-- One predicate stub block, the f-string at init.py lines 48 to 52. -/
def predBlock (p : String) : String :=
  "    @predicate(...)\n    def " ++ p
    ++ "(self):\n        \"\"\"Complete the method signature\"\"\"\n"

/-- The predicate section, init.py line 47: blocks joined with one newline. -/
def sectionPredicate (preds : List String) : String :=
  joinSep "\n" (preds.map predBlock)

/-- One action stub block, the f-string at init.py lines 55 to 62. -/
def actionBlock (a : String) : String :=
  "    @action(...)\n    def " ++ a
    ++ "(self):\n        \"\"\"This should be a pass\"\"\"\n        precond: list = None  # to fill in\n        effect: list = None  # to fill in\n        return precond, effect\n"

/-- The action section, init.py line 54: blocks joined with one newline. -/
def sectionAction (acts : List String) : String :=
  joinSep "\n" (acts.map actionBlock)

/-- The problem header, the f-string at init.py lines 64 to 67. The f-string
OPENS with a newline, so this block is a leading blank line followed by the
class line. -/
def problemHeader (className : String) : String :=
  "\nclass " ++ className ++ "Problem(" ++ className ++ "Domain):\n"

/-- The object section, init.py lines 69 to 73, fixed text. -/
def sectionObject : String :=
  "    def __init__(self):\n        \"\"\"To fill in\"\"\"\n"

/-- The init section, init.py lines 75 to 82, fixed text. -/
def sectionInit : String :=
  "    @init\n    def init(self) -> list:\n        # To fill in\n        # Return type is a list\n        return None\n"

/-- The goal section, init.py lines 84 to 91, fixed text. -/
def sectionGoal : String :=
  "    @goal\n    def goal(self) -> list:\n        # To fill in\n        # Return type is a list\n        return None\n"

/-- The whole rendered file, init.py lines 93 to 96: the section strings
concatenated with a single newline between consecutive pieces. -/
def template (className : String) (types preds acts : List String) : String :=
  domainHeader className ++ "\n" ++ sectionTypes types ++ "\n" ++
    sectionPredicate preds ++ "\n" ++ sectionAction acts ++ "\n" ++
    problemHeader className ++ "\n" ++ sectionObject ++ "\n" ++
    sectionInit ++ "\n" ++ sectionGoal

/-- Observable terminal events of a run: a prompt written to the terminal
and the final printed confirmation. What reaches the destination file is
reported separately, as the content the run leaves there. -/
inductive Ev where
  | prompt (msg : String)
  | printed (msg : String)
  deriving DecidableEq, Repr

def namePrompt : String := "Name: "

def typesPrompt : String := "Types (separated by space): "

def predicatesPrompt : String := "Predicates (separated by space): "

def actionsPrompt : String := "Actions (separated by space): "

/-- Oracle for the host storage layer during the write phase, init.py lines
98 to 100. openFails says whether open(filename, "w") itself raises OSError
before creating the destination. writeFailsAfter describes the write call:
none means the write completes; some k means an OSError is raised after the
first k characters (saturating at the content length) have reached the
destination, which open has already created and truncated. Any such OSError
propagates unmodified, there is no handler in the code. -/
structure Storage where
  openFails : Bool
  writeFailsAfter : Option Nat
  deriving DecidableEq, Repr

/-- The first k characters of a string, the prefix a failing write leaves
on disk. -/
def pyTake (s : String) (k : Nat) : String := ⟨s.data.take k⟩

/-- The init entry point, init.py lines 4 to 100, as a deterministic
function. destExists is the result of the Path(filename).exists() check at
line 10; inputs are the lines standard input will deliver, in order, and a
missing line makes the Python input call raise EOFError; storage describes
how the host file system behaves during the write phase. The value is the
final outcome, the ordered list of terminal events, and the content this
run leaves at the destination: none when the run never opened the
destination, some s when the run created the destination and left it
holding s. -/
def init (filename : String) (destExists : Bool) (inputs : List String)
    (storage : Storage) : Except PyError Unit × List Ev × Option String :=
  if destExists then
    (Except.error PyError.fileExistsError, [], none)
  else
    match inputs with
    | [] => (Except.error PyError.eofError, [Ev.prompt namePrompt], none)
    | nameRaw :: rest1 =>
      match collectName nameRaw with
      | Except.error e => (Except.error e, [Ev.prompt namePrompt], none)
      | Except.ok className =>
        match rest1 with
        | [] => (Except.error PyError.eofError,
                 [Ev.prompt namePrompt, Ev.prompt typesPrompt], none)
        | typesRaw :: rest2 =>
          match rest2 with
          | [] => (Except.error PyError.eofError,
                   [Ev.prompt namePrompt, Ev.prompt typesPrompt,
                    Ev.prompt predicatesPrompt], none)
          | predsRaw :: rest3 =>
            match rest3 with
            | [] => (Except.error PyError.eofError,
                     [Ev.prompt namePrompt, Ev.prompt typesPrompt,
                      Ev.prompt predicatesPrompt, Ev.prompt actionsPrompt], none)
            | actsRaw :: _ =>
              let content := template className (typesOf typesRaw)
                (predicatesOf predsRaw) (actionsOf actsRaw)
              if storage.openFails then
                (Except.error PyError.osError,
                 [Ev.prompt namePrompt, Ev.prompt typesPrompt,
                  Ev.prompt predicatesPrompt, Ev.prompt actionsPrompt], none)
              else
                match storage.writeFailsAfter with
                | some k =>
                  (Except.error PyError.osError,
                   [Ev.prompt namePrompt, Ev.prompt typesPrompt,
                    Ev.prompt predicatesPrompt, Ev.prompt actionsPrompt],
                   some (pyTake content k))
                | none =>
                  (Except.ok (),
                   [Ev.prompt namePrompt, Ev.prompt typesPrompt,
                    Ev.prompt predicatesPrompt, Ev.prompt actionsPrompt,
                    Ev.printed ("File written to " ++ filename)],
                   some content)

/-- The prompt messages among a list of events, in order. -/
def promptsOf : List Ev → List String
  | [] => []
  | Ev.prompt m :: es => m :: promptsOf es
  | _ :: es => promptsOf es

/-- Join a list of lines, terminating every line with a newline. On
newline-free lines the string reads back as exactly those lines, and an
empty element is a blank line of the output. -/
def joinNlTerm : List String → String
  | [] => ""
  | l :: ls => l ++ "\n" ++ joinNlTerm ls

/-- The five lines of the domain header: two import lines, two blank lines,
the class line. -/
def domainLines (className : String) : List String :=
  ["from py2pddl import Domain, create_type, create_objs",
   "from py2pddl import predicate, action, goal, init",
   "", "",
   "class " ++ className ++ "Domain(Domain):"]

/-- One type declaration, without its terminating newline. -/
def typeLineBody (typ : String) : String :=
  "    " ++ typ ++ " = create_type(\"" ++ typ ++ "\")"

/-- The lines of the type section: one line per token, no blank lines. -/
def typeLines (types : List String) : List String := types.map typeLineBody

/-- The three lines of one predicate stub block. -/
def predBlockLines (p : String) : List String :=
  ["    @predicate(...)",
   "    def " ++ p ++ "(self):",
   "        \"\"\"Complete the method signature\"\"\""]

/-- The lines of the predicate section: the blocks, one blank line between
consecutive blocks. -/
def predLines : List String → List String
  | [] => []
  | [p] => predBlockLines p
  | p :: ps => predBlockLines p ++ [""] ++ predLines ps

/-- The six lines of one action stub block. -/
def actionBlockLines (a : String) : List String :=
  ["    @action(...)",
   "    def " ++ a ++ "(self):",
   "        \"\"\"This should be a pass\"\"\"",
   "        precond: list = None  # to fill in",
   "        effect: list = None  # to fill in",
   "        return precond, effect"]

/-- The lines of the action section: the blocks, one blank line between
consecutive blocks. -/
def actLines : List String → List String
  | [] => []
  | [a] => actionBlockLines a
  | a :: acts => actionBlockLines a ++ [""] ++ actLines acts

/-- The one non-blank line of the problem header. -/
def problemLine (className : String) : String :=
  "class " ++ className ++ "Problem(" ++ className ++ "Domain):"

def objectLines : List String :=
  ["    def __init__(self):", "        \"\"\"To fill in\"\"\""]

def initLines : List String :=
  ["    @init", "    def init(self) -> list:", "        # To fill in",
   "        # Return type is a list", "        return None"]

def goalLines : List String :=
  ["    @goal", "    def goal(self) -> list:", "        # To fill in",
   "        # Return type is a list", "        return None"]

/-- The lines of the closing object, init and goal stubs, one blank line
between consecutive stubs. -/
def tailLines : List String :=
  objectLines ++ [""] ++ initLines ++ [""] ++ goalLines

/-- Modelled from the spec: title case as the spec words define it for one
token, the first character uppercased and all remaining characters
lowercased. -/
def specTitle (t : String) : String :=
  match t.data with
  | [] => ""
  | c :: cs => ⟨c.toUpper :: cs.map Char.toLower⟩

/- Helper lemmas. -/

/-- Unfolding joinSep on a list with at least two elements. -/
theorem joinSep_cons_cons (sep x y : String) (xs : List String) :
    joinSep sep (x :: y :: xs) = x ++ sep ++ joinSep sep (y :: xs) := rfl

/-- titleAux in the letter state lowercases a string of letters. -/
theorem titleAux_true_of_alpha (cs : List Char) (h : ∀ c ∈ cs, c.isAlpha) :
    titleAux true cs = cs.map Char.toLower := by
  induction cs with
  | nil => rfl
  | cons c cs ih =>
    have hc : c.isAlpha := h c (List.mem_cons_self c cs)
    have hcs : ∀ x ∈ cs, x.isAlpha := fun x hx => h x (List.mem_cons_of_mem c hx)
    simp [titleAux, hc, ih hcs]

/-- joinNlTerm distributes over list append. -/
theorem joinNlTerm_append (A B : List String) :
    joinNlTerm (A ++ B) = joinNlTerm A ++ joinNlTerm B := by
  induction A with
  | nil => simp [joinNlTerm, String.empty_append]
  | cons l ls ih => simp [joinNlTerm, ih, String.append_assoc]

/-- One type declaration is its body line terminated by a newline. -/
theorem typeLine_eq_lines (t : String) : typeLine t = joinNlTerm [typeLineBody t] := by
  simp only [typeLine, typeLineBody, joinNlTerm]
  rw [(by decide : ("\")\n" : String) = "\")" ++ "\n")]
  simp [String.append_assoc, String.append_empty]

/-- One predicate stub block is its three lines, each newline terminated. -/
theorem predBlock_eq_lines (p : String) : predBlock p = joinNlTerm (predBlockLines p) := by
  apply String.ext
  simp [predBlock, predBlockLines, joinNlTerm, String.data_append, List.append_assoc]

/-- One action stub block is its six lines, each newline terminated. -/
theorem actionBlock_eq_lines (a : String) : actionBlock a = joinNlTerm (actionBlockLines a) := by
  apply String.ext
  simp [actionBlock, actionBlockLines, joinNlTerm, String.data_append, List.append_assoc]

/-- The domain header is its five lines, each newline terminated. -/
theorem domainHeader_eq_lines (n : String) : domainHeader n = joinNlTerm (domainLines n) := by
  apply String.ext
  simp [domainHeader, domainLines, joinNlTerm, String.data_append, List.append_assoc]

/-- The problem header is a leading blank line followed by its class line. -/
theorem problemHeader_eq_lines (n : String) :
    problemHeader n = "\n" ++ joinNlTerm [problemLine n] := by
  apply String.ext
  simp [problemHeader, problemLine, joinNlTerm, String.data_append, List.append_assoc]

/-- The fixed closing sections are the tail lines, each newline terminated. -/
theorem tailSections_eq_lines :
    sectionObject ++ "\n" ++ sectionInit ++ "\n" ++ sectionGoal = joinNlTerm tailLines := by decide

/-- The type section is its lines, each newline terminated. -/
theorem sectionTypes_eq_lines (ts : List String) :
    sectionTypes ts = joinNlTerm (typeLines ts) := by
  induction ts with
  | nil => rfl
  | cons t ts ih =>
    cases ts with
    | nil => exact typeLine_eq_lines t
    | cons t2 ts2 =>
      have step : sectionTypes (t :: t2 :: ts2)
          = typeLine t ++ "" ++ sectionTypes (t2 :: ts2) := rfl
      rw [step, String.append_empty, ih, typeLine_eq_lines t, ← joinNlTerm_append]
      rfl

/-- The predicate section is its blocks with one blank line between
consecutive blocks, each line newline terminated. -/
theorem sectionPredicate_eq_lines (ps : List String) :
    sectionPredicate ps = joinNlTerm (predLines ps) := by
  induction ps with
  | nil => rfl
  | cons p ps ih =>
    cases ps with
    | nil => exact predBlock_eq_lines p
    | cons q qs =>
      have step : sectionPredicate (p :: q :: qs)
          = predBlock p ++ "\n" ++ sectionPredicate (q :: qs) := rfl
      have hpl : predLines (p :: q :: qs)
          = predBlockLines p ++ [""] ++ predLines (q :: qs) := rfl
      rw [step, ih, predBlock_eq_lines p, hpl, joinNlTerm_append, joinNlTerm_append,
        (by decide : joinNlTerm [""] = "\n")]

/-- The action section is its blocks with one blank line between
consecutive blocks, each line newline terminated. -/
theorem sectionAction_eq_lines (acts : List String) :
    sectionAction acts = joinNlTerm (actLines acts) := by
  induction acts with
  | nil => rfl
  | cons a acts ih =>
    cases acts with
    | nil => exact actionBlock_eq_lines a
    | cons b bs =>
      have step : sectionAction (a :: b :: bs)
          = actionBlock a ++ "\n" ++ sectionAction (b :: bs) := rfl
      have hal : actLines (a :: b :: bs)
          = actionBlockLines a ++ [""] ++ actLines (b :: bs) := rfl
      rw [step, ih, actionBlock_eq_lines a, hal, joinNlTerm_append, joinNlTerm_append,
        (by decide : joinNlTerm [""] = "\n")]

/- Claim theorems. -/

/-- C1 counterexample: on the empty name answer the code fails with the
untyped IndexError of indexing an empty string, which is not the typed
EmptyInputError the claim states. -/
theorem claim1_counterexample :
    collectName "" = Except.error PyError.indexError ∧
      PyError.indexError ≠ PyError.emptyInputError :=
  ⟨rfl, by decide⟩

/-- C1 amended: for every name answer whose trimmed form is empty, the name
step fails, but with the unchecked IndexError of evaluating answer[0] on an
empty string, not with a typed EmptyInputError; it does not proceed. -/
theorem claim1_theorem (raw : String) (h : pyStrip raw = "") :
    collectName raw = Except.error PyError.indexError := by
  simp [collectName, h]

/-- C1 witness: a whitespace-only answer trims to the empty string and the
name step fails with indexError. -/
theorem claim1_witness :
    pyStrip " " = "" ∧ collectName " " = Except.error PyError.indexError :=
  ⟨by decide, claim1_theorem " " (by decide)⟩

/-- C2 counterexample: on the empty types answer the split yields one empty
token, not an empty token sequence, and the rendered type section is a
one-line string, not the empty string. -/
theorem claim2_counterexample :
    typesOf "" = [""] ∧ sectionTypes (typesOf "") ≠ "" := by decide

/-- C2 amended: on the empty types answer the token list is the one-element
list holding the empty token, the type section renders as the single line
of an empty declaration, and the overall output still starts with the
domain header and still contains the problem header. -/
theorem claim2_theorem :
    typesOf "" = [""] ∧
      sectionTypes (typesOf "") = "     = create_type(\"\")\n" ∧
      ∀ n ps acts,
        (∃ rest, template n (typesOf "") ps acts = domainHeader n ++ rest) ∧
        (∃ pre post,
          template n (typesOf "") ps acts = pre ++ (problemHeader n ++ post)) := by
  refine ⟨by decide, by decide, fun n ps acts => ⟨?_, ?_⟩⟩
  · exact ⟨"\n" ++ (sectionTypes (typesOf "") ++ ("\n" ++ (sectionPredicate ps ++
      ("\n" ++ (sectionAction acts ++ ("\n" ++ (problemHeader n ++ ("\n" ++
      (sectionObject ++ ("\n" ++ (sectionInit ++ ("\n" ++ sectionGoal)))))))))))),
      by simp [template, String.append_assoc]⟩
  · exact ⟨domainHeader n ++ ("\n" ++ (sectionTypes (typesOf "") ++ ("\n" ++
      (sectionPredicate ps ++ ("\n" ++ (sectionAction acts ++ "\n")))))),
      "\n" ++ (sectionObject ++ ("\n" ++ (sectionInit ++ ("\n" ++ sectionGoal)))),
      by simp [template, String.append_assoc]⟩

/-- C3 counterexample: with two predicate tokens a and b, the rendered
predicate section is NOT the two stub blocks with no empty line between
them, and likewise for two action tokens x and y; the claimed layout, in
which the first line of the second block directly follows the last line of
the first block, does not match the output. -/
theorem claim3_counterexample :
    sectionPredicate (predicatesOf "a b")
        ≠ joinNlTerm (predBlockLines "a" ++ predBlockLines "b") ∧
      sectionAction (actionsOf "x y")
        ≠ joinNlTerm (actionBlockLines "x" ++ actionBlockLines "y") := by decide

/-- C3 amended: consecutive stub blocks are joined by the one-character
separator newline, but every block already ends with a newline, so exactly
one empty line stands between consecutive blocks, in the predicate section
and in the action section alike. -/
theorem claim3_theorem :
    (∀ p q ps, sectionPredicate (p :: q :: ps)
        = joinNlTerm (predBlockLines p ++ [""] ++ predLines (q :: ps))) ∧
      (∀ a b acts, sectionAction (a :: b :: acts)
        = joinNlTerm (actionBlockLines a ++ [""] ++ actLines (b :: acts))) := by
  constructor
  · intro p q ps
    have h : predLines (p :: q :: ps) = predBlockLines p ++ [""] ++ predLines (q :: ps) := rfl
    rw [← h]
    exact sectionPredicate_eq_lines _
  · intro a b acts
    have h : actLines (a :: b :: acts) = actionBlockLines a ++ [""] ++ actLines (b :: acts) := rfl
    rw [← h]
    exact sectionAction_eq_lines _

/-- C4 counterexample: on the concrete token lists of one type T, one
predicate p and one action a, the output is NOT the six sections separated
by exactly one blank line each: the layout the claim describes differs from
the rendered text. -/
theorem claim4_counterexample :
    template "A" ["T"] ["p"] ["a"]
      ≠ joinNlTerm (domainLines "A" ++ [""] ++ typeLines ["T"] ++ [""] ++
          predLines ["p"] ++ [""] ++ actLines ["a"] ++ [""] ++
          [problemLine "A"] ++ [""] ++ tailLines) := by decide

/-- C4 amended: read as newline terminated lines, the output is the six
sections in order with exactly one blank line between consecutive sections,
except between the action stubs and the problem header, where exactly two
blank lines stand, because the problem header block opens with a newline of
its own. -/
theorem claim4_theorem (n : String) (ts ps acts : List String) :
    template n ts ps acts
      = joinNlTerm (domainLines n ++ [""] ++ typeLines ts ++ [""] ++
          predLines ps ++ [""] ++ actLines acts ++ ["", ""] ++
          [problemLine n] ++ [""] ++ tailLines) := by
  have htail : sectionObject ++ "\n" ++ sectionInit ++ "\n" ++ sectionGoal
      = joinNlTerm tailLines := tailSections_eq_lines
  simp only [template]
  rw [domainHeader_eq_lines, sectionTypes_eq_lines, sectionPredicate_eq_lines,
    sectionAction_eq_lines, problemHeader_eq_lines]
  simp only [joinNlTerm_append]
  rw [(by decide : joinNlTerm [""] = "\n"),
    (by decide : joinNlTerm ["", ""] = "\n" ++ "\n"), ← htail]
  simp [String.append_assoc]
  rw [(by decide : ("\n\n" : String) = "\n" ++ "\n"), String.append_assoc]

/-- C5 counterexample: the hyphenated token foo-bar is rendered by the code
as Foo-Bar, while the claimed rule, uppercase the first character and
lowercase the rest, would give Foo-bar. -/
theorem claim5_counterexample :
    typesOf "foo-bar" = ["Foo-Bar"] ∧
      pyTitle "foo-bar" ≠ specTitle "foo-bar" := by decide

/-- C5 amended: Python title case uppercases the first letter of every
maximal run of letters and lowercases the other letters; on a token made of
letters only it coincides with the claimed rule, uppercase the first
character and lowercase the remainder. -/
theorem claim5_theorem (t : String) (h : ∀ c ∈ t.data, c.isAlpha) :
    pyTitle t = specTitle t := by
  cases t with
  | mk data =>
    cases data with
    | nil => rfl
    | cons c cs =>
      have hc : c.isAlpha := h c (List.mem_cons_self c cs)
      have hcs : ∀ x ∈ cs, x.isAlpha := fun x hx => h x (List.mem_cons_of_mem c hx)
      simp [pyTitle, specTitle, titleAux, hc, titleAux_true_of_alpha cs hcs]

/-- C5 witness: on the all-letters token sTaGe the code and the claimed
rule agree. -/
theorem claim5_witness : pyTitle "sTaGe" = specTitle "sTaGe" :=
  claim5_theorem "sTaGe" (by decide)

/-- C7: for every name answer whose trimmed form is nonempty, the name step
returns the trimmed string with its first character uppercased and all
remaining characters passed through unchanged. -/
theorem claim7_theorem (raw : String) (c : Char) (cs : List Char)
    (h : (pyStrip raw).data = c :: cs) :
    collectName raw = Except.ok ⟨c.toUpper :: cs⟩ := by
  simp [collectName, h]

/-- C7 witness: the answer rocket trims to itself and is returned as
Rocket. -/
theorem claim7_witness :
    (pyStrip "rocket").data = 'r' :: "ocket".data ∧
      collectName "rocket" = Except.ok "Rocket" := by
  have h := claim7_theorem "rocket" 'r' "ocket".data (by decide)
  exact ⟨by decide, h.trans rfl⟩

/-- C6: when the destination exists, init fails with the file-exists error
immediately: the event list is empty, so no prompt is ever issued, the
destination is never opened so nothing is written, and the outcome is
exactly that one error, whatever the storage layer would have done. -/
theorem claim6_theorem (filename : String) (inputs : List String) (storage : Storage) :
    init filename true inputs storage
      = (Except.error PyError.fileExistsError, [], none) := rfl

/-- C8: the number of type declaration lines equals the number of tokens of
the types split, the number of predicate stub blocks equals the number of
tokens of the predicates split, and the number of action stub blocks equals
the number of tokens of the actions split, duplicates and empty tokens
included; each section is rendered from exactly that list of lines or
blocks. -/
theorem claim8_theorem (rawT rawP rawA : String) :
    (typeLines (typesOf rawT)).length = (splitSpace (pyStrip rawT)).length ∧
      sectionTypes (typesOf rawT) = joinNlTerm (typeLines (typesOf rawT)) ∧
      ((predicatesOf rawP).map predBlock).length
        = (splitSpace (pyStrip rawP)).length ∧
      sectionPredicate (predicatesOf rawP)
        = joinSep "\n" ((predicatesOf rawP).map predBlock) ∧
      ((actionsOf rawA).map actionBlock).length
        = (splitSpace (pyStrip rawA)).length ∧
      sectionAction (actionsOf rawA)
        = joinSep "\n" ((actionsOf rawA).map actionBlock) := by
  refine ⟨?_, sectionTypes_eq_lines _, ?_, rfl, ?_, rfl⟩ <;>
    simp [typeLines, typesOf, predicatesOf, actionsOf]

/-- C9 counterexample: with an absent destination, the four answered
prompts of the concrete scenario, a successful open and a write that
raises after 10 characters, the run fails with osError, yet the
destination is left holding the first 10 characters of the skeleton:
neither the full skeleton nor nothing at all, so a failure during the
write does leave file content behind. -/
theorem claim9_counterexample :
    (init "domain.py" false ["rocket", "location stage", "launched docked", "launch"]
        ⟨false, some 10⟩).1 = Except.error PyError.osError ∧
      (init "domain.py" false ["rocket", "location stage", "launched docked", "launch"]
        ⟨false, some 10⟩).2.2 = some "from py2pd" ∧
      some "from py2pd" ≠ (none : Option String) ∧
      "from py2pd" ≠ template "Rocket" (typesOf "location stage")
        (predicatesOf "launched docked") (actionsOf "launch") :=
  ⟨rfl, by decide, by decide, by decide⟩

/-- C9 amended: every run falls in one of three cases: it fails before
opening the destination and leaves nothing there; or the destination was
absent, all four prompts were answered, open and write both succeeded, and
the destination holds the complete rendered skeleton; or open succeeded
and the write itself failed, and the destination is left truncated,
holding exactly the prefix of the skeleton that reached it, possibly
empty, rather than nothing, because open(filename, "w") creates and
truncates the destination before the write. -/
theorem claim9_theorem (filename : String) (destExists : Bool)
    (inputs : List String) (storage : Storage) :
    (∃ e, (init filename destExists inputs storage).1 = Except.error e ∧
        (init filename destExists inputs storage).2.2 = none) ∨
      (destExists = false ∧ storage.openFails = false ∧
        storage.writeFailsAfter = none ∧
        promptsOf (init filename destExists inputs storage).2.1
          = [namePrompt, typesPrompt, predicatesPrompt, actionsPrompt] ∧
        ∃ nameRaw typesRaw predsRaw actsRaw rest className,
          inputs = nameRaw :: typesRaw :: predsRaw :: actsRaw :: rest ∧
          collectName nameRaw = Except.ok className ∧
          (init filename destExists inputs storage).1 = Except.ok () ∧
          (init filename destExists inputs storage).2.2
            = some (template className (typesOf typesRaw) (predicatesOf predsRaw)
                (actionsOf actsRaw))) ∨
      (destExists = false ∧ storage.openFails = false ∧
        (init filename destExists inputs storage).1 = Except.error PyError.osError ∧
        ∃ k nameRaw typesRaw predsRaw actsRaw rest className,
          storage.writeFailsAfter = some k ∧
          inputs = nameRaw :: typesRaw :: predsRaw :: actsRaw :: rest ∧
          collectName nameRaw = Except.ok className ∧
          (init filename destExists inputs storage).2.2
            = some (pyTake (template className (typesOf typesRaw)
                (predicatesOf predsRaw) (actionsOf actsRaw)) k)) := by
  cases destExists with
  | true => exact Or.inl ⟨PyError.fileExistsError, rfl, rfl⟩
  | false =>
    match inputs with
    | [] => exact Or.inl ⟨PyError.eofError, rfl, rfl⟩
    | [nameRaw] =>
      cases h : collectName nameRaw with
      | error e =>
        exact Or.inl ⟨e, by simp [init, h], by simp [init, h]⟩
      | ok c =>
        exact Or.inl ⟨PyError.eofError, by simp [init, h], by simp [init, h]⟩
    | [nameRaw, typesRaw] =>
      cases h : collectName nameRaw with
      | error e =>
        exact Or.inl ⟨e, by simp [init, h], by simp [init, h]⟩
      | ok c =>
        exact Or.inl ⟨PyError.eofError, by simp [init, h], by simp [init, h]⟩
    | [nameRaw, typesRaw, predsRaw] =>
      cases h : collectName nameRaw with
      | error e =>
        exact Or.inl ⟨e, by simp [init, h], by simp [init, h]⟩
      | ok c =>
        exact Or.inl ⟨PyError.eofError, by simp [init, h], by simp [init, h]⟩
    | nameRaw :: typesRaw :: predsRaw :: actsRaw :: rest =>
      cases h : collectName nameRaw with
      | error e =>
        exact Or.inl ⟨e, by simp [init, h], by simp [init, h]⟩
      | ok c =>
        cases hopen : storage.openFails with
        | true =>
          exact Or.inl ⟨PyError.osError, by simp [init, h, hopen],
            by simp [init, h, hopen]⟩
        | false =>
          cases hw : storage.writeFailsAfter with
          | none =>
            exact Or.inr (Or.inl ⟨rfl, rfl, rfl,
              by simp [init, h, hopen, hw, promptsOf],
              nameRaw, typesRaw, predsRaw, actsRaw, rest, c, rfl, h,
              by simp [init, h, hopen, hw], by simp [init, h, hopen, hw]⟩)
          | some k =>
            exact Or.inr (Or.inr ⟨rfl, rfl,
              by simp [init, h, hopen, hw],
              k, nameRaw, typesRaw, predsRaw, actsRaw, rest, c, rfl, rfl, h,
              by simp [init, h, hopen, hw]⟩)

/-- C10: with the types, predicates and actions answers fixed, two runs
whose name answers both collect successfully produce outputs that differ
only in the domain header and the problem header: the type, predicate and
action sections form one shared middle and the object, init and goal
sections one shared tail, byte-identical between the two outputs. -/
theorem claim10_theorem (n1 n2 c1 c2 rawT rawP rawA : String)
    (_h1 : collectName n1 = Except.ok c1) (_h2 : collectName n2 = Except.ok c2) :
    ∃ mid tl,
      mid = sectionTypes (typesOf rawT) ++ "\n" ++
          sectionPredicate (predicatesOf rawP) ++ "\n" ++
          sectionAction (actionsOf rawA) ∧
      tl = sectionObject ++ "\n" ++ sectionInit ++ "\n" ++ sectionGoal ∧
      template c1 (typesOf rawT) (predicatesOf rawP) (actionsOf rawA)
        = domainHeader c1 ++ "\n" ++ mid ++ "\n" ++ problemHeader c1 ++ "\n" ++ tl ∧
      template c2 (typesOf rawT) (predicatesOf rawP) (actionsOf rawA)
        = domainHeader c2 ++ "\n" ++ mid ++ "\n" ++ problemHeader c2 ++ "\n" ++ tl := by
  refine ⟨_, _, rfl, rfl, ?_, ?_⟩ <;> simp [template, String.append_assoc]

/-- C10 witness: the runs with name answers rocket and probe and the fixed
answers of the concrete scenario share their middle and tail sections. -/
theorem claim10_witness :
    ∃ mid tl,
      mid = sectionTypes (typesOf "location stage") ++ "\n" ++
          sectionPredicate (predicatesOf "launched docked") ++ "\n" ++
          sectionAction (actionsOf "launch") ∧
      tl = sectionObject ++ "\n" ++ sectionInit ++ "\n" ++ sectionGoal ∧
      template "Rocket" (typesOf "location stage") (predicatesOf "launched docked")
          (actionsOf "launch")
        = domainHeader "Rocket" ++ "\n" ++ mid ++ "\n" ++ problemHeader "Rocket"
            ++ "\n" ++ tl ∧
      template "Probe" (typesOf "location stage") (predicatesOf "launched docked")
          (actionsOf "launch")
        = domainHeader "Probe" ++ "\n" ++ mid ++ "\n" ++ problemHeader "Probe"
            ++ "\n" ++ tl :=
  claim10_theorem "rocket" "probe" "Rocket" "Probe"
    "location stage" "launched docked" "launch" rfl rfl

end Py2pddl
